import Mathlib

/-!
Shallow embedding of `packages/components/nodes/agents/OpenAIAssistant/OpenAIAssistant.ts`
from the Flowise repository.

The source file is an orchestration routine around the OpenAI Assistants HTTP
API, a relational store and the local filesystem.  The embedding makes every
external interaction explicit: a `RunEnv` record carries the responses the
environment would give (database lookup results, remote API payloads, the
sequence of run-status snapshots returned by successive polls, a JSON-parse
oracle, the local filesystem contents), and `run` is a pure function from a
`RunEnv` to an `Outcome` together with a `RunTrace` of the outbound effects
(assistant updates pushed, threads created, runs created, tool invocations,
tool-output submissions, file retrievals and downloads).

Outcome `hang` models an invocation whose awaited promise is never resolved
nor rejected: in the source, an exception thrown inside the `setInterval`
callback (after the interval was cleared) leaves the wrapping promise
unsettled forever, so the caller neither receives a result nor an error.

Byte contents of downloaded files are modelled as `List Nat` (one entry per
byte); `base64Bytes` is a direct implementation of the base64 encoding that
`Buffer.toString` applies in the source.  The `zod-to-json-schema` library is
external to the repository; a tool schema is modelled as its already
serialised JSON-schema text, so `zodToJsonSchema` is the identity on that
representation.  The lodash `flatten` applied to the tool input is modelled
by taking `RunEnv.tools` to be the already flattened list.
-/

namespace OAIAssistant

/-- Shape of the `function` body of an OpenAI function tool. -/
structure FunctionDef where
  name : String
  description : String
  parameters : String
deriving DecidableEq, Repr

/-- An entry of an assistant tool list as stored remotely: a `type` tag and an
optional `function` body (absent for non-function tools or malformed rows). -/
structure OAITool where
  type : String
  function : Option FunctionDef
deriving DecidableEq, Repr

/-- A local tool capability object: name, description, serialised parameter
schema, and the callable invocation method.  `call` returns `none` when the
underlying invocation throws. -/
structure ToolDescriptor where
  name : String
  description : String
  schema : String
  call : String → Option String

/-- External `zod-to-json-schema` library, modelled as the identity on the
already serialised schema text. -/
def zodToJsonSchema (schema : String) : String := schema

/-- Mirror of `formatToOpenAIAssistantTool` in the source. -/
def formatToOpenAIAssistantTool (tool : ToolDescriptor) : OAITool :=
  { type := "function"
    function := some
      { name := tool.name
        description := tool.description
        parameters := zodToJsonSchema tool.schema } }

/-- Lodash `uniqWith(l, isEqual)`: keep the first occurrence of each element
under structural equality, preserving order. -/
def uniqWith {α : Type} [DecidableEq α] (l : List α) : List α :=
  l.foldl (fun acc x => if x ∈ acc then acc else acc ++ [x]) []

/-- Lines 145 to 146 of the source: de-duplicate the concatenation of the
remote tools with the freshly formatted local tools by structural equality,
then drop every entry whose type is `function` but whose function body is
missing. -/
def mergedTools (remoteTools formatted : List OAITool) : List OAITool :=
  (uniqWith (remoteTools ++ formatted)).filter
    (fun tool => !(tool.type == "function" && tool.function.isNone))

/-- The assistant-update calls issued by `run`: one call carrying the merged
list when the formatted local tool list is non-empty, none otherwise. -/
def updateCallsFor (remoteTools formatted : List OAITool) : List (List OAITool) :=
  if formatted.isEmpty then [] else [mergedTools remoteTools formatted]

/-- Status strings of a remote run, as compared in the poll callback. -/
inductive RunStatus
  | queued
  | in_progress
  | completed
  | requires_action
  | cancelled
  | expired
  | failed
deriving DecidableEq, Repr

/-- Rendering of a run status back to the string used in error messages. -/
def statusString : RunStatus → String
  | .queued => "queued"
  | .in_progress => "in_progress"
  | .completed => "completed"
  | .requires_action => "requires_action"
  | .cancelled => "cancelled"
  | .expired => "expired"
  | .failed => "failed"

/-- The `function` part of a remote tool-call request. -/
structure ToolCallFunction where
  name : String
  arguments : String
deriving DecidableEq, Repr

/-- One tool-call request carried by a `requires_action` run. -/
structure ToolCall where
  id : String
  function : ToolCallFunction
deriving DecidableEq, Repr

/-- What one `runs.retrieve` poll returns: the status, and the value of
`required_action?.submit_tool_outputs.tool_calls` (`none` when
`required_action` is absent; `some []` when present but empty, which is
truthy in the source). -/
structure RunSnapshot where
  status : RunStatus
  tool_calls : Option (List ToolCall)
deriving DecidableEq, Repr

/-- One entry of the `actions` array built in the poll callback. -/
structure Action where
  tool : String
  toolInput : String
  toolCallId : String
deriving DecidableEq, Repr

/-- The `forEach` over `tool_calls`: parse each JSON arguments text and build
the `actions` array.  Returns `none` when `JSON.parse` throws on any entry,
in which case the exception escapes the callback before any external effect
of this cycle. -/
def parseActions (jsonParse : String → Option String) : List ToolCall → Option (List Action)
  | [] => some []
  | c :: rest =>
    match jsonParse c.function.arguments with
    | none => none
    | some args =>
      match parseActions jsonParse rest with
      | none => none
      | some acts => some ({ tool := c.function.name, toolInput := args, toolCallId := c.id } :: acts)

/-- One used-tool record `{tool, toolInput, toolOutput}` pushed per successful
local tool invocation. -/
structure UsedTool where
  tool : String
  toolInput : String
  toolOutput : String
deriving DecidableEq, Repr

/-- Accumulator of the loop over `actions`: the collected
`submitToolOutputs`, the `usedTools` records, and the invocations performed. -/
structure ProcAcc where
  submitToolOutputs : List (String × String)
  usedTools : List UsedTool
  invocations : List (String × String)
deriving DecidableEq, Repr

/-- The `for` loop over `actions` (lines 199 to 212): find a local tool by
exact name, skip the action silently when none matches, otherwise invoke the
tool and record its output.  The boolean is `true` when a matched tool call
threw, in which case the loop stops there and the exception escapes the
callback. -/
def processActions (tools : List ToolDescriptor) :
    List Action → ProcAcc → ProcAcc × Bool
  | [], acc => (acc, false)
  | a :: rest, acc =>
    match tools.find? (fun tool => tool.name == a.tool) with
    | none => processActions tools rest acc
    | some tool =>
      match tool.call a.toolInput with
      | none => ({ acc with invocations := acc.invocations ++ [(tool.name, a.toolInput)] }, true)
      | some toolOutput =>
        processActions tools rest
          { submitToolOutputs := acc.submitToolOutputs ++ [(a.toolCallId, toolOutput)]
            usedTools := acc.usedTools ++
              [{ tool := tool.name, toolInput := a.toolInput, toolOutput := toolOutput }]
            invocations := acc.invocations ++ [(tool.name, a.toolInput)] }

/-- The calls of a batch that match some local tool by exact name. -/
def matchedCalls (tools : List ToolDescriptor) (calls : List ToolCall) : List ToolCall :=
  calls.filter (fun c => (tools.find? (fun tool => tool.name == c.function.name)).isSome)

/-- How one promise returned by the inner `promise` helper settles. -/
inductive PollSettle
  | completedS
  | submittedS
  | rejectedS (msg : String)
  | hungS
deriving DecidableEq, Repr

/-- Result of driving the interval until the promise settles (or hangs):
how it settled, the unconsumed snapshots, and the effects of the cycle. -/
structure CycleResult where
  settle : PollSettle
  rest : List RunSnapshot
  used : List UsedTool
  invocations : List (String × String)
  submissions : List (List (String × String))
deriving Repr

/-- Message rejected with when no tool output was produced for a
`requires_action` batch. -/
def emptySubmitMsg (threadId runId : String) : String :=
  "Error processing thread: requires_action, Thread ID: " ++ threadId ++
    ", Run ID: " ++ runId ++ ". submit_tool_outputs.tool_calls are empty"

/-- Message rejected with on a terminal `cancelled`, `expired` or `failed`
status. -/
def terminalMsg (s : RunStatus) (threadId runId : String) : String :=
  "Error processing thread: " ++ statusString s ++ ", Thread ID: " ++ threadId ++
    ", Run ID: " ++ runId

/-- One call of the inner `promise` helper: successive interval ticks retrieve
successive snapshots; `completed` resolves, a terminal failure status rejects,
`requires_action` with a present `tool_calls` field runs the tool cycle, any
other tick leaves the interval running.  An exhausted snapshot list models a
run that never reaches a settling state: the promise hangs. -/
def pollOnce (tools : List ToolDescriptor) (jsonParse : String → Option String)
    (threadId runId : String) : List RunSnapshot → CycleResult
  | [] => { settle := .hungS, rest := [], used := [], invocations := [], submissions := [] }
  | snap :: rest =>
    match snap.status with
    | .completed =>
      { settle := .completedS, rest := rest, used := [], invocations := [], submissions := [] }
    | .cancelled =>
      { settle := .rejectedS (terminalMsg .cancelled threadId runId), rest := rest,
        used := [], invocations := [], submissions := [] }
    | .expired =>
      { settle := .rejectedS (terminalMsg .expired threadId runId), rest := rest,
        used := [], invocations := [], submissions := [] }
    | .failed =>
      { settle := .rejectedS (terminalMsg .failed threadId runId), rest := rest,
        used := [], invocations := [], submissions := [] }
    | .queued => pollOnce tools jsonParse threadId runId rest
    | .in_progress => pollOnce tools jsonParse threadId runId rest
    | .requires_action =>
      match snap.tool_calls with
      | none => pollOnce tools jsonParse threadId runId rest
      | some calls =>
        match parseActions jsonParse calls with
        | none =>
          { settle := .hungS, rest := rest, used := [], invocations := [], submissions := [] }
        | some actions =>
          match processActions tools actions
              { submitToolOutputs := [], usedTools := [], invocations := [] } with
          | (acc, true) =>
            { settle := .hungS, rest := rest, used := acc.usedTools,
              invocations := acc.invocations, submissions := [] }
          | (acc, false) =>
            if acc.submitToolOutputs.isEmpty then
              { settle := .rejectedS (emptySubmitMsg threadId runId), rest := rest,
                used := acc.usedTools, invocations := acc.invocations, submissions := [] }
            else
              { settle := .submittedS, rest := rest, used := acc.usedTools,
                invocations := acc.invocations, submissions := [acc.submitToolOutputs] }

/-- Final fate of the outer polling loop. -/
inductive PollFinal
  | completedF
  | erroredF (msg : String)
  | hungF
deriving DecidableEq, Repr

/-- Aggregate of the outer polling loop: its fate and the accumulated
effects of all cycles. -/
structure PollResult where
  final : PollFinal
  used : List UsedTool
  invocations : List (String × String)
  submissions : List (List (String × String))
deriving Repr

/-- The outer driver (lines 236 to 239): await one promise, and loop while it
resolved with `requires_action`.  Fuel bounds the recursion; each settled
cycle consumes at least one snapshot, so `snaps.length + 1` fuel is never
exhausted before the snapshot list is. -/
def pollDriver (tools : List ToolDescriptor) (jsonParse : String → Option String)
    (threadId runId : String) : Nat → List RunSnapshot → PollResult
  | 0, _ => { final := .hungF, used := [], invocations := [], submissions := [] }
  | Nat.succ fuel, snaps =>
    let c := pollOnce tools jsonParse threadId runId snaps
    match c.settle with
    | .completedS =>
      { final := .completedF, used := c.used, invocations := c.invocations,
        submissions := c.submissions }
    | .rejectedS m =>
      { final := .erroredF m, used := c.used, invocations := c.invocations,
        submissions := c.submissions }
    | .hungS =>
      { final := .hungF, used := c.used, invocations := c.invocations,
        submissions := c.submissions }
    | .submittedS =>
      let r := pollDriver tools jsonParse threadId runId fuel c.rest
      { final := r.final, used := c.used ++ r.used,
        invocations := c.invocations ++ r.invocations,
        submissions := c.submissions ++ r.submissions }

/-- Polling of one run over the full snapshot sequence. -/
def pollRun (tools : List ToolDescriptor) (jsonParse : String → Option String)
    (threadId runId : String) (snaps : List RunSnapshot) : PollResult :=
  pollDriver tools jsonParse threadId runId (snaps.length + 1) snaps

/-- Alphabet of the base64 encoding. -/
def base64Chars : List Char :=
  "ABCDEFGHIJKLMNOPQRSTUVWXYZabcdefghijklmnopqrstuvwxyz0123456789+/".toList

/-- Character of the base64 alphabet at a given index. -/
def base64Char (n : Nat) : Char := base64Chars.getD n 'A'

/-- Encoding of a final chunk of at most three bytes. -/
def base64Chunk : List Nat → String
  | [b0] => String.mk [base64Char (b0 / 4), base64Char (b0 % 4 * 16)] ++ "=="
  | [b0, b1] =>
    String.mk [base64Char (b0 / 4), base64Char (b0 % 4 * 16 + b1 / 16),
      base64Char (b1 % 16 * 4)] ++ "="
  | [b0, b1, b2] =>
    String.mk [base64Char (b0 / 4), base64Char (b0 % 4 * 16 + b1 / 16),
      base64Char (b1 % 16 * 4 + b2 / 64), base64Char (b2 % 64)]
  | _ => ""

/-- Base64 encoding of a byte list, as `Buffer.toString` with the base64
argument produces in the source. -/
def base64Bytes : List Nat → String
  | b0 :: b1 :: b2 :: rest => base64Chunk [b0, b1, b2] ++ base64Bytes rest
  | rest => base64Chunk rest

/-- Metadata returned by `openai.files.retrieve`. -/
structure FileObj where
  id : String
  filename : String
deriving DecidableEq, Repr

/-- One content part of a remote message: a text part or an image-file part. -/
inductive ContentPart
  | text (value : String)
  | image_file (file_id : String)
deriving DecidableEq, Repr

/-- One remote thread message: its author role and content parts. -/
structure RemoteMessage where
  role : String
  content : List ContentPart
deriving DecidableEq, Repr

/-- Stored assistant record: its credential reference and the remote
assistant id carried by the JSON `details` blob (`none` when the blob does
not parse). -/
structure StoredAssistant where
  credential : String
  detailsId : Option String
deriving DecidableEq, Repr

/-- Remote assistant as returned by `assistants.retrieve`: its id and its
currently registered tool list. -/
structure RemoteAssistant where
  id : String
  tools : List OAITool
deriving DecidableEq, Repr

/-- Environment of one `run` invocation: every response the database, the
remote API, the JSON parser and the filesystem would give. -/
structure RunEnv where
  selectedAssistantId : String
  assistantRecord : Option StoredAssistant
  credentialKey : Option String
  remoteAssistant : Option RemoteAssistant
  chatmessage : Option String
  newThreadId : String
  threadExists : String → Bool
  runId : String
  snapshots : List RunSnapshot
  jsonParse : String → Option String
  tools : List ToolDescriptor
  input : String
  messages : List RemoteMessage
  files : String → FileObj
  downloadOk : String → Bool
  downloadContent : String → List Nat
  fs : String → Option (List Nat)
  homeDir : String

/-- Cache path of a downloaded image: home, the `.flowise/openai-assistant`
folder, and the remote file name with a `png` extension. -/
def imageFilePath (home filename : String) : String :=
  home ++ "/.flowise/openai-assistant/" ++ filename ++ ".png"

/-- The inline image tag appended to the output for one downloaded image. -/
def imgHTML (base64String filename : String) : String :=
  "<img src=\"data:image/png;base64," ++ base64String ++
    "\" width=\"100%\" height=\"max-content\" alt=\"" ++ filename ++ "\" /><br/>"

/-- Message of the error thrown by `readFileSync` on a missing file. -/
def enoentMsg (filePath : String) : String :=
  "ENOENT: no such file or directory, open " ++ filePath

/-- State threaded through the content-part loop: the output string built so
far, the filesystem contents, and the metadata fetches and downloads
performed. -/
structure AsmState where
  text : String
  fs : String → Option (List Nat)
  fileRetrieves : List String
  downloads : List String

/-- The loop over the content parts of the newest assistant message (lines
248 to 269): text parts are appended verbatim; an image part triggers one
metadata fetch and one download attempt.  `downloadFile` swallows its own
failure, after which `readFileSync` reads the cache path unconditionally:
a missing file raises the `String` in the first component, a present file is
base64 embedded in an image tag. -/
def assembleParts (env : RunEnv) : List ContentPart → AsmState → Option String × AsmState
  | [], st => (none, st)
  | part :: rest, st =>
    match part with
    | .text v => assembleParts env rest { st with text := st.text ++ v }
    | .image_file fileId =>
      let fileObj := env.files fileId
      let filePath := imageFilePath env.homeDir fileObj.filename
      let st1 : AsmState :=
        { st with
          fileRetrieves := st.fileRetrieves ++ [fileId]
          downloads := st.downloads ++ [fileId]
          fs :=
            if env.downloadOk fileId then
              fun p => if p = filePath then some (env.downloadContent fileId) else st.fs p
            else st.fs }
      match st1.fs filePath with
      | none => (some (enoentMsg filePath), st1)
      | some bitmap =>
        assembleParts env rest
          { st1 with text := st1.text ++ imgHTML (base64Bytes bitmap) fileObj.filename }

/-- Possible fates of an invocation: a returned value, a thrown error, or a
promise that never settles. -/
inductive Outcome (α : Type)
  | ok (a : α)
  | err (msg : String)
  | hang
deriving DecidableEq, Repr

/-- Value returned by `run`: the bare empty string (line 245) or the
structured result object (lines 271 to 275). -/
inductive RunResult
  | emptyString
  | obj (text : String) (usedTools : List UsedTool) (assistantId : String)
      (threadId : String) (runId : String) (messages : List RemoteMessage)
deriving DecidableEq, Repr

/-- Outbound effects of one `run` invocation. -/
structure RunTrace where
  updateCalls : List (List OAITool)
  threadCreates : Nat
  runCreates : List (String × String)
  toolInvocations : List (String × String)
  submissions : List (List (String × String))
  fileRetrieves : List String
  downloads : List String
deriving DecidableEq, Repr

/-- Trace of an invocation that performed no outbound call. -/
def emptyTrace : RunTrace :=
  { updateCalls := [], threadCreates := 0, runCreates := [], toolInvocations := []
    submissions := [], fileRetrieves := [], downloads := [] }

/-- The catch block at line 277 rethrows `new Error(error)`, whose message is
the string rendering of the caught error. -/
def wrapErr (msg : String) : String := "Error: " ++ msg

/-- Response assembly after the run completed (lines 242 to 275): list the
thread messages, return the bare empty string when no assistant-authored
message exists, otherwise render the newest assistant message and bundle the
structured result. -/
def runAssembled (env : RunEnv) (openAIAssistantId threadId : String)
    (poll : PollResult) (base : RunTrace) : Outcome RunResult × RunTrace :=
  let messageData := env.messages
  let assistantMessages := messageData.filter (fun msg => msg.role == "assistant")
  match assistantMessages with
  | [] => (.ok .emptyString, base)
  | first :: _ =>
    match assembleParts env first.content
        { text := "", fs := env.fs, fileRetrieves := [], downloads := [] } with
    | (some m, st) =>
      (.err (wrapErr m),
       { base with fileRetrieves := st.fileRetrieves, downloads := st.downloads })
    | (none, st) =>
      (.ok (.obj st.text poll.used openAIAssistantId threadId env.runId messageData),
       { base with fileRetrieves := st.fileRetrieves, downloads := st.downloads })

/-- The tail of `run` once a thread id is fixed: create the user message and
the run, poll to a final state, and assemble the response on completion. -/
def runWithThread (env : RunEnv) (openAIAssistantId : String)
    (retrievedAssistant : RemoteAssistant) (threadId : String) (created : Nat)
    (updates : List (List OAITool)) : Outcome RunResult × RunTrace :=
  let poll := pollRun env.tools env.jsonParse threadId env.runId env.snapshots
  let base : RunTrace :=
    { updateCalls := updates, threadCreates := created
      runCreates := [(threadId, retrievedAssistant.id)]
      toolInvocations := poll.invocations, submissions := poll.submissions
      fileRetrieves := [], downloads := [] }
  match poll.final with
  | .hungF => (.hang, base)
  | .erroredF m => (.err (wrapErr m), base)
  | .completedF => runAssembled env openAIAssistantId threadId poll base

/-- Body of the try block once the remote assistant is retrieved: push the
merged tool list when the local list is non-empty, resolve the thread from
the chat message record (creating a new thread when none exists, retrieving
the stored session id otherwise), then run and poll. -/
def runResolved (env : RunEnv) (openAIAssistantId : String)
    (retrievedAssistant : RemoteAssistant) : Outcome RunResult × RunTrace :=
  let formattedTools := env.tools.map formatToOpenAIAssistantTool
  let updates := updateCallsFor retrievedAssistant.tools formattedTools
  match env.chatmessage with
  | none => runWithThread env openAIAssistantId retrievedAssistant env.newThreadId 1 updates
  | some sessionId =>
    if env.threadExists sessionId then
      runWithThread env openAIAssistantId retrievedAssistant sessionId 0 updates
    else
      (.err (wrapErr ("No thread found with id " ++ sessionId)),
       { emptyTrace with updateCalls := updates })

/-- Mirror of the `run` method: resolve the stored assistant and the API key
(thrown unwrapped, lines 130 and 134), then inside the try block parse the
details blob, retrieve the remote assistant and continue with
`runResolved`; every error of the try block is rethrown wrapped. -/
def run (env : RunEnv) : Outcome RunResult × RunTrace :=
  match env.assistantRecord with
  | none => (.err ("Assistant " ++ env.selectedAssistantId ++ " not found"), emptyTrace)
  | some assistant =>
    match env.credentialKey with
    | none => (.err "OpenAI ApiKey not found", emptyTrace)
    | some _ =>
      match assistant.detailsId with
      | none => (.err (wrapErr "Unexpected token in JSON"), emptyTrace)
      | some openAIAssistantId =>
        match env.remoteAssistant with
        | none =>
          (.err (wrapErr ("No assistant found with id " ++ openAIAssistantId)), emptyTrace)
        | some retrievedAssistant => runResolved env openAIAssistantId retrievedAssistant

/-- Environment of one `clearSessionMemory` invocation. -/
structure ClearEnv where
  selectedAssistantId : String
  assistantRecord : Option StoredAssistant
  sessionIdInput : Option String
  chatId : Option String
  chatmessage : Option String
  credentialKey : Option String
  delOk : Option String → Bool

/-- Effects of one `clearSessionMemory` invocation: thread deletions
attempted and error-level log lines emitted. -/
structure ClearTrace where
  deletions : List (Option String)
  errorLogs : List String
deriving DecidableEq, Repr

/-- Tail of `clearSessionMemory` once the session id is resolved: check the
API key (logged no-op when missing) and delete the remote thread.  The
deletion is not wrapped in any catch, so its failure propagates as a thrown
error. -/
def clearAfterSession (env : ClearEnv) (sessionId : Option String) :
    Outcome Unit × ClearTrace :=
  match env.credentialKey with
  | none => (.ok (), { deletions := [], errorLogs := ["OpenAI ApiKey not found"] })
  | some _ =>
    if env.delOk sessionId then (.ok (), { deletions := [sessionId], errorLogs := [] })
    else (.err "Failed to delete thread", { deletions := [sessionId], errorLogs := [] })

/-- Mirror of the `clearSessionMemory` method: a missing assistant record or
a missing chat message record is logged and returned from silently; the
session id defaults to the stored chat message session id only when no
session id input is present and a chat id is. -/
def clearSessionMemory (env : ClearEnv) : Outcome Unit × ClearTrace :=
  match env.assistantRecord with
  | none =>
    (.ok (),
     { deletions := []
       errorLogs := ["Assistant " ++ env.selectedAssistantId ++ " not found"] })
  | some _ =>
    match env.sessionIdInput, env.chatId with
    | none, some chatId =>
      match env.chatmessage with
      | none =>
        (.ok (),
         { deletions := []
           errorLogs := ["Chat Message with Chat Id: " ++ chatId ++ " not found"] })
      | some sid => clearAfterSession env (some sid)
    | sidInput, _ => clearAfterSession env sidInput

/-! Concrete environments used by the witness and counterexample theorems. -/

/-- A concrete local tool whose invocation succeeds deterministically. -/
def wTool (nm : String) : ToolDescriptor :=
  { name := nm, description := "d " ++ nm, schema := "schema " ++ nm
    call := fun i => some ("out " ++ nm ++ " " ++ i) }

/-- Formatted shape of the alpha tool. -/
def cA : OAITool := formatToOpenAIAssistantTool (wTool "alpha")

/-- Formatted shape of the beta tool. -/
def cB : OAITool := formatToOpenAIAssistantTool (wTool "beta")

/-- A stored assistant record whose details blob parses to the remote id. -/
def storedRec : StoredAssistant := { credential := "cred", detailsId := some "oai-as" }

/-- A remote assistant already holding the alpha tool. -/
def remoteRec : RemoteAssistant := { id := "oai-as", tools := [cA] }

/-- Baseline happy-path environment: resolution succeeds, no chat message
record, a single poll returning completed, and a two-part text answer. -/
def baseEnv : RunEnv :=
  { selectedAssistantId := "as1"
    assistantRecord := some storedRec
    credentialKey := some "key"
    remoteAssistant := some remoteRec
    chatmessage := none
    newThreadId := "th1"
    threadExists := fun _ => true
    runId := "run1"
    snapshots := [{ status := .completed, tool_calls := none }]
    jsonParse := fun s => some s
    tools := [wTool "alpha", wTool "beta"]
    input := "question"
    messages := [{ role := "assistant", content := [.text "Hello ", .text "world"] }]
    files := fun i => { id := i, filename := "img" }
    downloadOk := fun _ => true
    downloadContent := fun _ => [104, 105]
    fs := fun _ => none
    homeDir := "/home/user" }

/-- Environment with one image part whose download fails and an empty
filesystem cache. -/
def imgFailEnv : RunEnv :=
  { baseEnv with
    messages := [{ role := "assistant", content := [.image_file "fX"] }]
    downloadOk := fun _ => false }

/-- Same failure with a stale file already cached at the image path. -/
def imgStaleEnv : RunEnv :=
  { imgFailEnv with fs := fun _ => some [104, 105] }

/-- Environment whose message list holds no assistant-authored message. -/
def noAssistantMsgEnv : RunEnv :=
  { baseEnv with messages := [{ role := "user", content := [.text "hi"] }] }

/-- One tool call that matches no local tool. -/
def noMatchCalls : List ToolCall :=
  [{ id := "cid9", function := { name := "gamma", arguments := "a9" } }]

/-- Environment whose single poll demands a tool with no local match. -/
def noMatchEnv : RunEnv :=
  { baseEnv with
    snapshots := [{ status := .requires_action, tool_calls := some noMatchCalls }] }

/-- Two tool calls matching the two local tools, in order. -/
def matchedCallsPair : List ToolCall :=
  [{ id := "cid1", function := { name := "alpha", arguments := "a1" } },
   { id := "cid2", function := { name := "beta", arguments := "a2" } }]

/-- Environment with one requires action cycle of two matched calls followed
by completion. -/
def matchedEnv : RunEnv :=
  { baseEnv with
    snapshots := [{ status := .requires_action, tool_calls := some matchedCallsPair },
      { status := .completed, tool_calls := none }]
    messages := [{ role := "assistant", content := [.text "done"] }] }

/-- One tool call whose JSON arguments do not parse. -/
def parseThrowCalls : List ToolCall :=
  [{ id := "cid1", function := { name := "alpha", arguments := "bad" } }]

/-- Environment whose tool-call arguments make the JSON parser throw. -/
def parseThrowEnv : RunEnv :=
  { baseEnv with
    snapshots := [{ status := .requires_action, tool_calls := some parseThrowCalls }]
    jsonParse := fun s => if s == "bad" then none else some s }

/-- Clearing environment where resolution succeeds and the remote thread
deletion fails. -/
def clearFailEnv : ClearEnv :=
  { selectedAssistantId := "as1", assistantRecord := some storedRec
    sessionIdInput := some "sess", chatId := none, chatmessage := none
    credentialKey := some "key", delOk := fun _ => false }

/-- Clearing environment with no stored assistant record. -/
def clearMissingEnv : ClearEnv :=
  { clearFailEnv with assistantRecord := none }

/-! Helper lemmas shared by the claim theorems. -/

/-- When resolution succeeds, `run` reduces to its resolved tail. -/
theorem run_eq_resolved (env : RunEnv) (a : StoredAssistant) (k aid : String)
    (ra : RemoteAssistant) (ha : env.assistantRecord = some a)
    (hk : env.credentialKey = some k) (hd : a.detailsId = some aid)
    (hr : env.remoteAssistant = some ra) :
    run env = runResolved env aid ra := by
  simp only [run, ha, hk, hd, hr]

/-- Shape of the trace of `runWithThread`: every field except the assembly
ones is fixed before polling finishes. -/
theorem runWithThread_snd (env : RunEnv) (oaid : String) (ra : RemoteAssistant)
    (tid : String) (n : Nat) (updates : List (List OAITool)) :
    ∃ fr dl, (runWithThread env oaid ra tid n updates).2 =
      { updateCalls := updates, threadCreates := n, runCreates := [(tid, ra.id)]
        toolInvocations :=
          (pollRun env.tools env.jsonParse tid env.runId env.snapshots).invocations
        submissions :=
          (pollRun env.tools env.jsonParse tid env.runId env.snapshots).submissions
        fileRetrieves := fr, downloads := dl } := by
  simp only [runWithThread, runAssembled]
  split
  · exact ⟨[], [], rfl⟩
  · exact ⟨[], [], rfl⟩
  · split
    · exact ⟨[], [], rfl⟩
    · split
      · exact ⟨_, _, rfl⟩
      · exact ⟨_, _, rfl⟩

/-- When every argument text parses, the actions array is the image of the
tool calls. -/
theorem parseActions_map (jsonParse : String → Option String) (calls : List ToolCall)
    (args : ToolCall → String)
    (h : ∀ c ∈ calls, jsonParse c.function.arguments = some (args c)) :
    parseActions jsonParse calls =
      some (calls.map (fun c =>
        { tool := c.function.name, toolInput := args c, toolCallId := c.id })) := by
  induction calls with
  | nil => rfl
  | cons c rest ih =>
    have hc := h c (List.mem_cons_self c rest)
    have hrest := ih (fun x hx => h x (List.mem_cons_of_mem c hx))
    simp [parseActions, hc, hrest]

/-- A call with no matching local tool contributes nothing to the matched
call list. -/
theorem matchedCalls_cons_none (tools : List ToolDescriptor) (c : ToolCall)
    (rest : List ToolCall)
    (hf : tools.find? (fun tool => tool.name == c.function.name) = none) :
    matchedCalls tools (c :: rest) = matchedCalls tools rest := by
  simp [matchedCalls, List.filter_cons, hf]

/-- A call with a matching local tool heads the matched call list. -/
theorem matchedCalls_cons_some (tools : List ToolDescriptor) (c : ToolCall)
    (rest : List ToolCall) (t : ToolDescriptor)
    (hf : tools.find? (fun tool => tool.name == c.function.name) = some t) :
    matchedCalls tools (c :: rest) = c :: matchedCalls tools rest := by
  simp [matchedCalls, List.filter_cons, hf]

/-- When no call matches a local tool the matched call list is empty. -/
theorem matchedCalls_eq_nil (tools : List ToolDescriptor) (calls : List ToolCall)
    (hnm : ∀ c ∈ calls, tools.find? (fun tool => tool.name == c.function.name) = none) :
    matchedCalls tools calls = [] := by
  induction calls with
  | nil => rfl
  | cons c rest ih =>
    rw [matchedCalls_cons_none tools c rest (hnm c (List.mem_cons_self c rest))]
    exact ih (fun x hx => hnm x (List.mem_cons_of_mem c hx))

/-- Characterisation of the action loop when every matched tool call
succeeds: matched calls contribute one output, one used-tool record and one
invocation each, in call order; unmatched calls are skipped. -/
theorem processActions_matched (tools : List ToolDescriptor) (calls : List ToolCall)
    (args out : ToolCall → String) (acc : ProcAcc)
    (hcall : ∀ c ∈ calls, ∀ t,
      tools.find? (fun tool => tool.name == c.function.name) = some t →
      t.call (args c) = some (out c)) :
    processActions tools
      (calls.map (fun c =>
        { tool := c.function.name, toolInput := args c, toolCallId := c.id })) acc =
      ({ submitToolOutputs := acc.submitToolOutputs ++
           (matchedCalls tools calls).map (fun c => (c.id, out c))
         usedTools := acc.usedTools ++ (matchedCalls tools calls).map (fun c =>
           { tool := c.function.name, toolInput := args c, toolOutput := out c })
         invocations := acc.invocations ++
           (matchedCalls tools calls).map (fun c => (c.function.name, args c)) }, false) := by
  induction calls generalizing acc with
  | nil => simp [processActions, matchedCalls]
  | cons c rest ih =>
    have hrest : ∀ x ∈ rest, ∀ t,
        tools.find? (fun tool => tool.name == x.function.name) = some t →
        t.call (args x) = some (out x) :=
      fun x hx t ht => hcall x (List.mem_cons_of_mem c hx) t ht
    cases hf : tools.find? (fun tool => tool.name == c.function.name) with
    | none =>
      simp only [List.map_cons, processActions, hf, matchedCalls_cons_none tools c rest hf]
      exact ih acc hrest
    | some t =>
      have hname : t.name = c.function.name := by
        have h1 := List.find?_some hf
        simpa using h1
      have hct : t.call (args c) = some (out c) :=
        hcall c (List.mem_cons_self c rest) t hf
      simp only [List.map_cons, processActions, hf, hct,
        matchedCalls_cons_some tools c rest t hf, List.map_cons]
      rw [ih _ hrest]
      simp [hname, List.append_assoc]

/-- The update calls recorded by the resolved tail are exactly the ones of
the reconciliation step, on every control path. -/
theorem runResolved_updateCalls (env : RunEnv) (oaid : String) (ra : RemoteAssistant) :
    (runResolved env oaid ra).2.updateCalls =
      updateCallsFor ra.tools (env.tools.map formatToOpenAIAssistantTool) := by
  simp only [runResolved]
  split
  · obtain ⟨fr, dl, h⟩ := runWithThread_snd env oaid ra env.newThreadId 1
      (updateCallsFor ra.tools (env.tools.map formatToOpenAIAssistantTool))
    rw [h]
  · split
    · obtain ⟨fr, dl, h⟩ := runWithThread_snd env oaid ra _ 0
        (updateCallsFor ra.tools (env.tools.map formatToOpenAIAssistantTool))
      rw [h]
    · rfl

/-! Claim theorems. -/

/-- C1: when the local tool list is non-empty, the single tool list pushed to
the remote assistant is the structural-equality de-duplicated union of the
remote tools with the formatted local tools, with every entry of type
function lacking a function body removed. -/
theorem run_toolReconciliation (env : RunEnv) (a : StoredAssistant) (k aid : String)
    (ra : RemoteAssistant) (ha : env.assistantRecord = some a)
    (hk : env.credentialKey = some k) (hd : a.detailsId = some aid)
    (hr : env.remoteAssistant = some ra) (ht : env.tools ≠ []) :
    (run env).2.updateCalls =
      [mergedTools ra.tools (env.tools.map formatToOpenAIAssistantTool)] := by
  rw [run_eq_resolved env a k aid ra ha hk hd hr, runResolved_updateCalls]
  cases henv : env.tools with
  | nil => exact absurd henv ht
  | cons x xs => simp [updateCallsFor]

/-- C1 witness: with remote tools `[A]` and local tools `[A, B]` where A is
structurally identical, the pushed list is exactly `[A, B]`. -/
theorem run_toolReconciliation_witness :
    (run baseEnv).2.updateCalls = [[cA, cB]] := by
  have h := run_toolReconciliation baseEnv storedRec "key" "oai-as" remoteRec rfl rfl rfl rfl
    (fun hh => List.noConfusion hh)
  rw [h]
  decide

/-- C2 counterexample: an invocation whose single image download fails does
not return a successful result omitting the image markup; the unprotected
file read throws and the invocation fails. -/
theorem run_imageDownloadFailure_counterexample :
    (run imgFailEnv).1 =
      Outcome.err (wrapErr (enoentMsg "/home/user/.flowise/openai-assistant/img.png")) := by
  decide

/-- C2 amended: a failed image download is swallowed inside downloadFile,
but the following unconditional file read is not protected: with no cached
file at the path the invocation throws, and with a previously cached file
the invocation succeeds with that file embedded, not omitted. -/
theorem run_imageDownloadFailure (env : RunEnv) (a : StoredAssistant) (k aid : String)
    (ra : RemoteAssistant) (fid : String) (ha : env.assistantRecord = some a)
    (hk : env.credentialKey = some k) (hd : a.detailsId = some aid)
    (hr : env.remoteAssistant = some ra) (hcm : env.chatmessage = none)
    (hsnap : env.snapshots = [{ status := .completed, tool_calls := none }])
    (hmsg : env.messages = [{ role := "assistant", content := [ContentPart.image_file fid] }])
    (hdl : env.downloadOk fid = false) :
    (env.fs (imageFilePath env.homeDir (env.files fid).filename) = none →
      (run env).1 =
        .err (wrapErr (enoentMsg (imageFilePath env.homeDir (env.files fid).filename)))) ∧
    (∀ bytes, env.fs (imageFilePath env.homeDir (env.files fid).filename) = some bytes →
      (run env).1 = .ok (.obj (imgHTML (base64Bytes bytes) (env.files fid).filename) []
        aid env.newThreadId env.runId env.messages)) := by
  rw [run_eq_resolved env a k aid ra ha hk hd hr]
  simp only [runResolved, hcm]
  constructor
  · intro hfs
    simp [runWithThread, runAssembled, assembleParts, pollRun, pollDriver, pollOnce,
      hsnap, hmsg, hdl, hfs]
  · intro bytes hfs
    simp [runWithThread, runAssembled, assembleParts, pollRun, pollDriver, pollOnce,
      hsnap, hmsg, hdl, hfs]

/-- C2 witness: the two concrete outcomes of a failed download, with an
empty cache and with a stale cached file. -/
theorem run_imageDownloadFailure_witness :
    (run imgFailEnv).1 =
      Outcome.err (wrapErr (enoentMsg "/home/user/.flowise/openai-assistant/img.png")) ∧
    (run imgStaleEnv).1 = Outcome.ok (RunResult.obj (imgHTML "aGk=" "img") [] "oai-as" "th1"
      "run1" imgStaleEnv.messages) := by
  constructor
  · exact (run_imageDownloadFailure imgFailEnv storedRec "key" "oai-as" remoteRec "fX"
      rfl rfl rfl rfl rfl rfl rfl rfl).1 rfl
  · have h := (run_imageDownloadFailure imgStaleEnv storedRec "key" "oai-as" remoteRec "fX"
      rfl rfl rfl rfl rfl rfl rfl rfl).2 [104, 105] rfl
    exact h.trans (by decide)

/-- C3 counterexample: an invocation whose thread holds no assistant-authored
message returns the bare empty string, a third output shape beside a thrown
error and the structured result object. -/
theorem run_outputShape_counterexample :
    (run noAssistantMsgEnv).1 = Outcome.ok RunResult.emptyString := by decide

/-- C3 amended: the bare empty string is a possible returned value, and it is
returned exactly on the paths where the fetched message list holds no
assistant-authored message; any other produced output is a thrown error or
the structured result object. -/
theorem run_emptyString_only_without_assistant_message (env : RunEnv)
    (h : (run env).1 = Outcome.ok RunResult.emptyString) :
    env.messages.filter (fun msg => msg.role == "assistant") = [] := by
  simp only [run, runResolved, runWithThread, runAssembled] at h
  repeat' split at h
  all_goals simp_all

/-- C3 witness: the concrete empty-string return together with the absence
of assistant messages it implies. -/
theorem run_emptyString_only_without_assistant_message_witness :
    (run noAssistantMsgEnv).1 = Outcome.ok RunResult.emptyString ∧
    noAssistantMsgEnv.messages.filter (fun msg => msg.role == "assistant") = [] :=
  ⟨by decide, run_emptyString_only_without_assistant_message noAssistantMsgEnv (by decide)⟩

/-- C4: a requires action poll whose tool calls all parse but match no local
tool by exact name submits zero outputs and fails the invocation with an
error naming the thread id and the run id. -/
theorem run_noMatchingTool (env : RunEnv) (a : StoredAssistant) (k aid : String)
    (ra : RemoteAssistant) (calls : List ToolCall) (rest : List RunSnapshot)
    (args : ToolCall → String) (ha : env.assistantRecord = some a)
    (hk : env.credentialKey = some k) (hd : a.detailsId = some aid)
    (hr : env.remoteAssistant = some ra) (hcm : env.chatmessage = none)
    (hsnap : env.snapshots = { status := .requires_action, tool_calls := some calls } :: rest)
    (_hne : calls ≠ [])
    (hparse : ∀ c ∈ calls, env.jsonParse c.function.arguments = some (args c))
    (hnm : ∀ c ∈ calls, env.tools.find? (fun tool => tool.name == c.function.name) = none) :
    (run env).1 = .err (wrapErr (emptySubmitMsg env.newThreadId env.runId)) ∧
    (run env).2.submissions = [] := by
  rw [run_eq_resolved env a k aid ra ha hk hd hr]
  simp only [runResolved, hcm]
  have hpa := parseActions_map env.jsonParse calls args hparse
  have hproc := processActions_matched env.tools calls args (fun _ => "")
    { submitToolOutputs := [], usedTools := [], invocations := [] }
    (fun c hc t ht => absurd ht (by simp [hnm c hc]))
  rw [matchedCalls_eq_nil env.tools calls hnm] at hproc
  simp only [List.map_nil, List.append_nil] at hproc
  simp [runWithThread, pollRun, pollDriver, pollOnce, hsnap, hpa, hproc]

/-- C4 witness: one unmatched tool call yields the empty-submission error
naming thread th1 and run run1, with nothing submitted. -/
theorem run_noMatchingTool_witness :
    (run noMatchEnv).1 = Outcome.err (wrapErr (emptySubmitMsg "th1" "run1")) ∧
    (run noMatchEnv).2.submissions = [] := by
  have h := run_noMatchingTool noMatchEnv storedRec "key" "oai-as" remoteRec
    noMatchCalls []
    (fun c => c.function.arguments) rfl rfl rfl rfl rfl rfl (by decide)
    (fun c hc => rfl)
    (by intro c hc; simp only [noMatchCalls, List.mem_singleton] at hc; subst hc; rfl)
  exact h

/-- C5: in a requires action batch whose calls all parse, each call matched
by exact name triggers one synchronous tool invocation in call order, the
unmatched calls are skipped, all outputs are submitted in one batch call,
and one used-tool record per matched call appears in the final result in
call order. -/
theorem run_matchedToolCycle (env : RunEnv) (a : StoredAssistant) (k aid : String)
    (ra : RemoteAssistant) (calls : List ToolCall) (v : String)
    (args out : ToolCall → String) (ha : env.assistantRecord = some a)
    (hk : env.credentialKey = some k) (hd : a.detailsId = some aid)
    (hr : env.remoteAssistant = some ra) (hcm : env.chatmessage = none)
    (hsnap : env.snapshots = [{ status := .requires_action, tool_calls := some calls },
      { status := .completed, tool_calls := none }])
    (hmsg : env.messages = [{ role := "assistant", content := [ContentPart.text v] }])
    (hparse : ∀ c ∈ calls, env.jsonParse c.function.arguments = some (args c))
    (hcall : ∀ c ∈ calls, ∀ t,
      env.tools.find? (fun tool => tool.name == c.function.name) = some t →
      t.call (args c) = some (out c))
    (hne : matchedCalls env.tools calls ≠ []) :
    (run env).2.toolInvocations =
      (matchedCalls env.tools calls).map (fun c => (c.function.name, args c)) ∧
    (run env).2.submissions =
      [(matchedCalls env.tools calls).map (fun c => (c.id, out c))] ∧
    (run env).1 = .ok (.obj v
      ((matchedCalls env.tools calls).map (fun c =>
        { tool := c.function.name, toolInput := args c, toolOutput := out c }))
      aid env.newThreadId env.runId env.messages) := by
  rw [run_eq_resolved env a k aid ra ha hk hd hr]
  simp only [runResolved, hcm]
  have hpa := parseActions_map env.jsonParse calls args hparse
  have hproc := processActions_matched env.tools calls args out
    { submitToolOutputs := [], usedTools := [], invocations := [] } hcall
  simp only [List.nil_append] at hproc
  have hie : ((matchedCalls env.tools calls).map (fun c => (c.id, out c))).isEmpty = false := by
    cases hmc : matchedCalls env.tools calls with
    | nil => exact absurd hmc hne
    | cons x xs => rfl
  simp [runWithThread, runAssembled, assembleParts, pollRun, pollDriver, pollOnce, hsnap, hpa,
    hproc, hie, hmsg]

/-- C5 witness: two matched calls yield exactly two invocations in call
order, one submission carrying two outputs, and two used-tool records in the
final result. -/
theorem run_matchedToolCycle_witness :
    (run matchedEnv).2.toolInvocations = [("alpha", "a1"), ("beta", "a2")] ∧
    (run matchedEnv).2.submissions =
      [[("cid1", "out alpha a1"), ("cid2", "out beta a2")]] ∧
    (run matchedEnv).1 = Outcome.ok (RunResult.obj "done"
      [{ tool := "alpha", toolInput := "a1", toolOutput := "out alpha a1" },
       { tool := "beta", toolInput := "a2", toolOutput := "out beta a2" }]
      "oai-as" "th1" "run1" matchedEnv.messages) := by
  obtain ⟨h1, h2, h3⟩ := run_matchedToolCycle matchedEnv storedRec "key" "oai-as" remoteRec
    matchedCallsPair "done"
    (fun c => c.function.arguments) (fun c => "out " ++ c.function.name ++ " " ++ c.function.arguments)
    rfl rfl rfl rfl rfl rfl rfl (fun c hc => rfl)
    (by intro c hc t ht
        fin_cases hc <;> (injection ht with h2; subst h2; rfl))
    (by decide)
  exact ⟨h1.trans (by decide), h2.trans (by decide), h3.trans (by decide)⟩

/-- C6: a poll that returns a cancelled, expired or failed status makes the
invocation fail with an error naming that status and the thread and run ids,
with nothing submitted and no partial text returned. -/
theorem run_terminalFailure (env : RunEnv) (a : StoredAssistant) (k aid : String)
    (ra : RemoteAssistant) (s : RunStatus) (tc : Option (List ToolCall))
    (rest : List RunSnapshot) (ha : env.assistantRecord = some a)
    (hk : env.credentialKey = some k) (hd : a.detailsId = some aid)
    (hr : env.remoteAssistant = some ra) (hcm : env.chatmessage = none)
    (hsnap : env.snapshots = { status := s, tool_calls := tc } :: rest)
    (hs : s = .cancelled ∨ s = .expired ∨ s = .failed) :
    (run env).1 = .err (wrapErr (terminalMsg s env.newThreadId env.runId)) ∧
    (run env).2.submissions = [] := by
  rw [run_eq_resolved env a k aid ra ha hk hd hr]
  simp only [runResolved, hcm]
  rcases hs with h | h | h <;> subst h <;>
    simp [runWithThread, pollRun, pollDriver, pollOnce, hsnap]

/-- C6 witness: a first poll returning failed yields the error naming that
status with thread th1 and run run1, and nothing is submitted. -/
theorem run_terminalFailure_witness :
    (run { baseEnv with snapshots := [{ status := .failed, tool_calls := none }] }).1 =
      Outcome.err (wrapErr (terminalMsg .failed "th1" "run1")) ∧
    (run { baseEnv with snapshots := [{ status := .failed, tool_calls := none }] }).2.submissions
      = [] :=
  run_terminalFailure { baseEnv with snapshots := [{ status := .failed, tool_calls := none }] }
    storedRec "key" "oai-as" remoteRec .failed none [] rfl rfl rfl rfl rfl rfl
    (Or.inr (Or.inr rfl))

/-- C7: once resolution succeeds, a missing chat message record leads to
exactly one thread creation whose id is used for the single run issued
against the resolved remote assistant id, and an existing record leads to no
thread creation with the stored session id used as the thread id. -/
theorem run_threadSelection (env : RunEnv) (a : StoredAssistant) (k aid : String)
    (ra : RemoteAssistant) (ha : env.assistantRecord = some a)
    (hk : env.credentialKey = some k) (hd : a.detailsId = some aid)
    (hr : env.remoteAssistant = some ra) :
    (env.chatmessage = none →
      (run env).2.threadCreates = 1 ∧ (run env).2.runCreates = [(env.newThreadId, ra.id)]) ∧
    (∀ sid, env.chatmessage = some sid → env.threadExists sid = true →
      (run env).2.threadCreates = 0 ∧ (run env).2.runCreates = [(sid, ra.id)]) := by
  rw [run_eq_resolved env a k aid ra ha hk hd hr]
  constructor
  · intro hcm
    simp only [runResolved, hcm]
    obtain ⟨fr, dl, h⟩ := runWithThread_snd env aid ra env.newThreadId 1
      (updateCallsFor ra.tools (env.tools.map formatToOpenAIAssistantTool))
    rw [h]
    exact ⟨rfl, rfl⟩
  · intro sid hcm hex
    simp only [runResolved, hcm, hex, if_true]
    obtain ⟨fr, dl, h⟩ := runWithThread_snd env aid ra sid 0
      (updateCallsFor ra.tools (env.tools.map formatToOpenAIAssistantTool))
    rw [h]
    exact ⟨rfl, rfl⟩

/-- C7 witness: without a chat record the new thread th1 is created and used
for the single run against the resolved assistant; with a record the stored
session id sess9 is reused and no thread is created. -/
theorem run_threadSelection_witness :
    (run baseEnv).2.threadCreates = 1 ∧ (run baseEnv).2.runCreates = [("th1", "oai-as")] ∧
    (run { baseEnv with chatmessage := some "sess9" }).2.threadCreates = 0 ∧
    (run { baseEnv with chatmessage := some "sess9" }).2.runCreates = [("sess9", "oai-as")] := by
  have h1 := (run_threadSelection baseEnv storedRec "key" "oai-as" remoteRec rfl rfl rfl rfl).1 rfl
  have h2 := (run_threadSelection { baseEnv with chatmessage := some "sess9" } storedRec "key"
    "oai-as" remoteRec rfl rfl rfl rfl).2 "sess9" rfl rfl
  exact ⟨h1.1, h1.2, h2.1, h2.2⟩

/-- C8: when the caller-provided local tool list is empty, `run` issues no
assistant-update call at all, so the remote tool configuration is untouched. -/
theorem run_emptyTools_noUpdate (env : RunEnv) (h : env.tools = []) :
    (run env).2.updateCalls = [] := by
  simp only [run]
  split
  · rfl
  · split
    · rfl
    · split
      · rfl
      · split
        · rfl
        · rw [runResolved_updateCalls]
          simp [h, updateCallsFor]

/-- C8 witness: the concrete empty tool list produces no update call. -/
theorem run_emptyTools_noUpdate_witness :
    ({ baseEnv with tools := [] } : RunEnv).tools = [] ∧
    (run { baseEnv with tools := [] }).2.updateCalls = [] :=
  ⟨rfl, run_emptyTools_noUpdate { baseEnv with tools := [] } rfl⟩

/-- C9 counterexample: when the remote thread deletion fails, the session
teardown propagates a thrown error instead of returning normally. -/
theorem clearSessionMemory_counterexample :
    (clearSessionMemory clearFailEnv).1 = Outcome.err "Failed to delete thread" := by decide

/-- C9 amended: resolution failures of clearSessionMemory (missing stored
assistant, missing chat message record, missing API key) are logged and
swallowed with no deletion attempted, but a remote thread deletion failure
is not caught and propagates as a thrown error. -/
theorem clearSessionMemory_failurePolicy (env : ClearEnv) :
    (env.assistantRecord = none → (clearSessionMemory env).1 = .ok () ∧
      (clearSessionMemory env).2.deletions = []) ∧
    (env.sessionIdInput = none → env.chatmessage = none → ∀ cid, env.chatId = some cid →
      (clearSessionMemory env).1 = .ok () ∧ (clearSessionMemory env).2.deletions = []) ∧
    (env.credentialKey = none → (clearSessionMemory env).1 = .ok () ∧
      (clearSessionMemory env).2.deletions = []) ∧
    (∀ a s key, env.assistantRecord = some a → env.sessionIdInput = some s →
      env.credentialKey = some key → env.delOk (some s) = false →
      (clearSessionMemory env).1 = .err "Failed to delete thread") := by
  refine ⟨?_, ?_, ?_, ?_⟩
  · intro h
    simp [clearSessionMemory, h]
  · intro hs hcm cid hcid
    cases har : env.assistantRecord with
    | none => simp [clearSessionMemory, har]
    | some a => simp [clearSessionMemory, har, hs, hcid, hcm]
  · intro hkey
    cases har : env.assistantRecord with
    | none => simp [clearSessionMemory, har]
    | some a =>
      cases hs : env.sessionIdInput with
      | none =>
        cases hcid : env.chatId with
        | none => simp [clearSessionMemory, har, hs, hcid, clearAfterSession, hkey]
        | some cid =>
          cases hcm : env.chatmessage with
          | none => simp [clearSessionMemory, har, hs, hcid, hcm]
          | some sid => simp [clearSessionMemory, har, hs, hcid, hcm, clearAfterSession, hkey]
      | some s => simp [clearSessionMemory, har, hs, clearAfterSession, hkey]
  · intro a s key har hs hkey hdel
    cases hcid : env.chatId with
    | none => simp [clearSessionMemory, har, hs, hcid, clearAfterSession, hkey, hdel]
    | some cid => simp [clearSessionMemory, har, hs, hcid, clearAfterSession, hkey, hdel]

/-- C9 witness: the concrete propagated deletion failure, and the silent
no-op on a missing assistant record. -/
theorem clearSessionMemory_failurePolicy_witness :
    (clearSessionMemory clearFailEnv).1 = Outcome.err "Failed to delete thread" ∧
    (clearSessionMemory clearMissingEnv).1 = Outcome.ok () ∧
    (clearSessionMemory clearMissingEnv).2.deletions = [] := by
  refine ⟨(clearSessionMemory_failurePolicy clearFailEnv).2.2.2 storedRec "sess" "key"
    rfl rfl rfl rfl, ?_, ?_⟩
  · exact ((clearSessionMemory_failurePolicy clearMissingEnv).1 rfl).1
  · exact ((clearSessionMemory_failurePolicy clearMissingEnv).1 rfl).2

/-- C10: when JSON parsing of a tool call argument throws, or a matched
local tool call throws, the exception escapes the interval callback after
the interval is cleared: the invocation submits no tool outputs and neither
returns a result nor throws to the caller. -/
theorem run_callbackException (env : RunEnv) (a : StoredAssistant) (k aid : String)
    (ra : RemoteAssistant) (calls : List ToolCall) (rest : List RunSnapshot)
    (ha : env.assistantRecord = some a) (hk : env.credentialKey = some k)
    (hd : a.detailsId = some aid) (hr : env.remoteAssistant = some ra)
    (hcm : env.chatmessage = none)
    (hsnap : env.snapshots = { status := .requires_action, tool_calls := some calls } :: rest)
    (hthrow : parseActions env.jsonParse calls = none ∨
      ∃ acts, parseActions env.jsonParse calls = some acts ∧
        (processActions env.tools acts
          { submitToolOutputs := [], usedTools := [], invocations := [] }).2 = true) :
    (run env).1 = .hang ∧ (run env).2.submissions = [] := by
  rw [run_eq_resolved env a k aid ra ha hk hd hr]
  simp only [runResolved, hcm]
  rcases hthrow with hp | ⟨acts, hpa, hb⟩
  · simp [runWithThread, pollRun, pollDriver, pollOnce, hsnap, hp]
  · rcases hpp : processActions env.tools acts
        { submitToolOutputs := [], usedTools := [], invocations := [] } with ⟨acc, b⟩
    rw [hpp] at hb
    subst hb
    simp [runWithThread, pollRun, pollDriver, pollOnce, hsnap, hpa, hpp]

/-- C10 witness: a tool call whose arguments fail to parse leaves the
invocation hanging with no submission. -/
theorem run_callbackException_witness :
    (run parseThrowEnv).1 = Outcome.hang ∧ (run parseThrowEnv).2.submissions = [] :=
  run_callbackException parseThrowEnv storedRec "key" "oai-as" remoteRec
    parseThrowCalls []
    rfl rfl rfl rfl rfl rfl (Or.inl (by decide))

end OAIAssistant
